import Mathlib

/-!
# LED platform drivers: Siemens IPC127 and Operational Services EM32x

A shallow embedding of `drivers/leds/leds-siemens-ipc127.c` and
`drivers/platform/x86/os-em32x.c`.

Both drivers are sequences of calls into the host kernel.  Every such call is
recorded, in program order, in the `trace` of the machine state, and the
outcome of a call that may fail is read from an environment `Env`.  Diagnostic
output (`pr_info`, `pr_err`) is recorded apart, in `log`.  MMIO registers are
a map from physical address to the byte last written; the `__iomem` cookie
that `devm_ioremap` hands out is represented by the physical address it maps,
and `NULL` by `0`.  An identification table is the list of its entries; a walk
that passes the last entry of a table reads outside of it, and what `os_init`
finds behind `os_dmi_table` is part of its environment.
-/

/-! ## Kernel constants and the DMI core -/

/-- Modelled from the spec: the errno constant ENOMEM lives in the kernel headers,
which are not under src/; the spec only asks that the failure is reported to the
caller, the value is the one of errno-base.h. -/
def ENOMEM : Int := 12

/-- Modelled from the spec: the errno constant ENODEV lives in the kernel headers,
which are not under src/; the spec only asks that the failure is reported to the
caller, the value is the one of errno-base.h. -/
def ENODEV : Int := 19

/-- Firmware identity of the running board: the two DMI fields the drivers read. -/
structure dmi_ident where
  sys_vendor : String
  product_name : String
deriving DecidableEq, Repr

/-- DMI field selectors used by the drivers; `DMI_NONE` marks an unused slot. -/
inductive dmi_field where
  | DMI_NONE
  | DMI_SYS_VENDOR
  | DMI_PRODUCT_NAME
deriving DecidableEq, Repr

/-- Firmware string stored in a DMI field (`dmi_get_system_info`). -/
def dmi_get_system_info (fw : dmi_ident) : dmi_field → String
  | .DMI_NONE => ""
  | .DMI_SYS_VENDOR => fw.sys_vendor
  | .DMI_PRODUCT_NAME => fw.product_name

/-- Modelled from the spec: dmi_match is a kernel helper that is not under src/;
the spec requires an exact, case-sensitive match of the identity string. -/
def dmi_match (fw : dmi_ident) (f : dmi_field) (str : String) : Bool :=
  dmi_get_system_info fw f == str

/-- One match of an identification entry (`struct dmi_strmatch`). -/
structure dmi_strmatch where
  slot : dmi_field
  substr : String
deriving DecidableEq, Repr

/-- Modelled from the spec: the DMI_MATCH initialiser is a kernel header define
that is not under src/; it fills one match with a field selector and the string
the field is compared with. -/
def DMI_MATCH (a : dmi_field) (b : String) : dmi_strmatch :=
  { slot := a, substr := b }

/-- An identification entry (`struct dmi_system_id`); unused match slots are left
out, so the empty entry `{}` has no matches.  `callback` tells whether the
entry carries the table's callback.  The field `strmatches` is the source's
`matches`. -/
structure dmi_system_id (α : Type) where
  ident : String
  strmatches : List dmi_strmatch
  driver_data : Option α
  callback : Bool
deriving Repr

/-- The empty entry `{}` that closes an identification table. -/
def dmi_system_id.terminator {α : Type} : dmi_system_id α :=
  { ident := "", strmatches := [], driver_data := none, callback := false }

/-- Modelled from the spec: the end-of-table test of the DMI core is not under
src/; an entry whose first match slot is unused closes the table. -/
def dmi_is_end_of_table {α : Type} (d : dmi_system_id α) : Bool :=
  match d.strmatches with
  | [] => true
  | m :: _ => m.slot == .DMI_NONE

/-- Modelled from the spec: the entry matcher of the DMI core is not under src/;
every used match of the entry has to hold, and a match holds when the firmware
string equals the given string exactly, case-sensitively. -/
def dmi_matches (fw : dmi_ident) : List dmi_strmatch → Bool
  | [] => true
  | m :: rest =>
    if m.slot == .DMI_NONE then true
    else if dmi_match fw m.slot m.substr then dmi_matches fw rest
    else false

/-- Outcome of a table scan: the number of matching entries, or a read of an
entry at `index`, which lies outside the table. -/
inductive Scan (σ : Type) where
  | done (count : Nat) (s : σ)
  | out_of_bounds (index : Nat) (s : σ)

/-- Modelled from the spec: dmi_check_system is a kernel helper that is not under
src/; it walks the entries from the first one up to the empty entry that closes
the table, counts the matching entries, runs the callback of each matching
entry and stops early when a callback returns non-zero.  The arguments are the
entries from index `i` on; none left means the walk has run past the table. -/
def dmi_check_system {α σ : Type} (cb : dmi_system_id α → σ → Int × σ) (fw : dmi_ident) :
    List (dmi_system_id α) → Nat → Nat → σ → Scan σ
  | [], i, _, s => .out_of_bounds i s
  | d :: rest, i, count, s =>
    if dmi_is_end_of_table d then .done count s
    else if dmi_matches fw d.strmatches then
      if d.callback then
        let r := cb d s
        if r.1 ≠ 0 then .done (count + 1) r.2
        else dmi_check_system cb fw rest (i + 1) (count + 1) r.2
      else dmi_check_system cb fw rest (i + 1) (count + 1) s
    else dmi_check_system cb fw rest (i + 1) count s

namespace IPC127

/-! ## leds-siemens-ipc127.c -/

def IPC127_FCH_ACPI_MMIO_BASE : Nat := 0xD0C50500

def IPC127_FCH_GPIO_BASE : Nat := IPC127_FCH_ACPI_MMIO_BASE

def IPC127_LEDON : Nat := 0x00

def IPC127_LEDOFF : Nat := 0x01

/-- The value `LED_OFF` of `enum led_brightness`. -/
def LED_OFF : Nat := 0

/-- Flags of a LED class device; the driver sets only this one. -/
inductive led_flag where
  | LED_CORE_SUSPENDRESUME
deriving DecidableEq, Repr

/-- The fields of `struct led_classdev` the driver fills in.  `brightness_set`
tells whether the callback `ipc127_led_brightness_set` is installed. -/
structure led_classdev where
  name : String
  brightness : Nat
  max_brightness : Nat
  flags : List led_flag
  brightness_set : Bool
deriving DecidableEq, Repr

/-- LED private data (`struct ipc127_led_priv`). -/
structure ipc127_led_priv where
  cdev : led_classdev
  addr : Nat
deriving DecidableEq, Repr

/-- A zeroed `struct ipc127_led_priv`, as `devm_kcalloc` returns it. -/
def ipc127_led_priv.zero : ipc127_led_priv :=
  { cdev := { name := "", brightness := 0, max_brightness := 0, flags := [],
              brightness_set := false },
    addr := 0 }

/-- One entry of the LED profile (`struct ipc127_led_profile`). -/
structure ipc127_led_profile_t where
  name : String
  brightness : Nat
  offset : Nat
deriving DecidableEq, Repr

/-- LED profile. -/
def ipc127_led_profile : List ipc127_led_profile_t :=
  [ { name := "ipc127:red:1",   brightness := LED_OFF, offset := IPC127_FCH_GPIO_BASE + 0x1A0 },
    { name := "ipc127:green:1", brightness := LED_OFF, offset := IPC127_FCH_GPIO_BASE + 0x1A8 },
    { name := "ipc127:red:2",   brightness := LED_OFF, offset := IPC127_FCH_GPIO_BASE + 0x1C8 },
    { name := "ipc127:green:2", brightness := LED_OFF, offset := IPC127_FCH_GPIO_BASE + 0x1D0 },
    { name := "ipc127:red:3",   brightness := LED_OFF, offset := IPC127_FCH_GPIO_BASE + 0x1E0 },
    { name := "ipc127:green:3", brightness := LED_OFF, offset := IPC127_FCH_GPIO_BASE + 0x198 } ]

/-- The identification table of the IPC127 driver (`MODULE_DEVICE_TABLE`). -/
def ipc127_led_dmi_table : List (dmi_system_id Unit) :=
  [ { ident := "ipc127",
      strmatches := [ DMI_MATCH .DMI_SYS_VENDOR "SIEMENS AG",
                   DMI_MATCH .DMI_PRODUCT_NAME "SIMATIC IPC127E" ],
      driver_data := none, callback := false },
    dmi_system_id.terminator ]

/-- Kernel calls made by the driver, in the order they are made. -/
inductive Event where
  | devm_kzalloc
  | devm_kcalloc (n : Nat)
  | spin_lock_init
  | spin_lock
  | spin_unlock
  | iowrite8 (value : Nat) (addr : Nat)
  | devm_ioremap (offset : Nat)
  | led_classdev_register (i : Nat) (cdev : led_classdev)
  | led_classdev_unregister (i : Nat)
  | platform_device_register_simple
  | platform_driver_probe
  | platform_device_unregister
  | platform_driver_unregister
deriving DecidableEq, Repr

/-- Outcomes of the kernel calls that may fail. -/
structure Env where
  /-- Whether `devm_kzalloc` for `*leds` returns non-NULL. -/
  kzalloc_ok : Bool
  /-- Whether `devm_kcalloc` for `leds->pled` returns non-NULL. -/
  kcalloc_ok : Bool
  /-- Whether `devm_ioremap` for entry `i` returns non-NULL. -/
  ioremap_ok : Nat → Bool
  /-- Return value of `led_classdev_register` for entry `i`. -/
  led_register : Nat → Int
  /-- Error of `platform_device_register_simple` (`PTR_ERR`); `0` for a valid device. -/
  pdev_register : Int
  /-- Return value of the driver registration inside `platform_driver_probe`. -/
  driver_register : Int

/-- Machine state: the driver's globals and what the kernel holds for it. -/
structure State where
  /-- Whether `leds->pdev` is set. -/
  leds_pdev : Bool
  /-- The array `leds->pled`. -/
  pled : Nat → ipc127_led_priv
  /-- MMIO registers, by physical address. -/
  regs : Nat → Nat
  /-- Indices of the LED class devices currently registered. -/
  led_registered : List Nat
  /-- The platform device is registered. -/
  pdev_registered : Bool
  /-- The platform driver is registered. -/
  driver_registered : Bool
  trace : List Event
  log : List String

/-- State at module load: nothing allocated, nothing registered. -/
def State.init (regs : Nat → Nat) : State :=
  { leds_pdev := false, pled := fun _ => ipc127_led_priv.zero, regs := regs,
    led_registered := [], pdev_registered := false, driver_registered := false,
    trace := [], log := [] }

def emit (e : Event) (s : State) : State :=
  { s with trace := s.trace ++ [e] }

def pr_err (msg : String) (s : State) : State :=
  { s with log := s.log ++ [msg] }

/-- Byte store to an MMIO register. -/
def iowrite8 (value addr : Nat) (s : State) : State :=
  emit (.iowrite8 value addr) { s with regs := fun a => if a = addr then value else s.regs a }

def led_classdev_unregister (i : Nat) (s : State) : State :=
  emit (.led_classdev_unregister i) { s with led_registered := s.led_registered.erase i }

def ipc127_led_brightness_set (i : Nat) (value : Nat) (s : State) : State :=
  let pled := s.pled i
  let s := emit .spin_lock s
  let s := iowrite8 (if value ≠ 0 then IPC127_LEDON else IPC127_LEDOFF) pled.addr s
  emit .spin_unlock s

/-- The `error:` label of the probe: `while (i-- > 0) led_classdev_unregister(...)`. -/
def probe_error : Nat → State → State
  | 0, s => s
  | i + 1, s => probe_error i (led_classdev_unregister i s)

/-- Stores into `leds->pled[i]`. -/
def set_pled (i : Nat) (p : ipc127_led_priv) (s : State) : State :=
  { s with pled := fun j => if j = i then p else s.pled j }

/-- The `for` loop of the probe, entered at index `i` with the profile entries
from `i` on still to do. -/
def probe_loop (env : Env) : List ipc127_led_profile_t → Nat → State → Int × State
  | [], _, s => (0, s)
  | p :: rest, i, s =>
    let led_cdev : led_classdev :=
      { name := p.name, brightness := p.brightness, max_brightness := 1,
        flags := [.LED_CORE_SUSPENDRESUME], brightness_set := true }
    let s := set_pled i { (s.pled i) with cdev := led_cdev } s
    let s := emit (.devm_ioremap p.offset) s
    let addr := if env.ioremap_ok i then p.offset else 0
    let s := set_pled i { (s.pled i) with addr := addr } s
    if addr = 0 then
      (-ENOMEM, probe_error i s)
    else
      let err := env.led_register i
      let s := emit (.led_classdev_register i led_cdev) s
      if err ≠ 0 then
        (err, probe_error i s)
      else
        let s := { s with led_registered := s.led_registered ++ [i] }
        let s := ipc127_led_brightness_set i p.brightness s
        probe_loop env rest (i + 1) s

def ipc127_led_probe (env : Env) (s : State) : Int × State :=
  let s := emit .devm_kzalloc s
  if !env.kzalloc_ok then (-ENOMEM, s) else
  let s := emit (.devm_kcalloc ipc127_led_profile.length) s
  if !env.kcalloc_ok then (-ENOMEM, s) else
  let s := { s with pled := fun _ => ipc127_led_priv.zero }
  let s := { s with leds_pdev := true }
  let s := emit .spin_lock_init s
  probe_loop env ipc127_led_profile 0 s

/-- Modelled from the spec: platform_driver_probe is a kernel helper that is not
under src/; it registers the driver, runs the probe routine against the platform
device registered before, and reports a failure to the caller, leaving the
driver unregistered. -/
def platform_driver_probe (env : Env) (s : State) : Int × State :=
  let s := emit .platform_driver_probe s
  if env.driver_register ≠ 0 then (env.driver_register, s) else
  let r := ipc127_led_probe env s
  if r.1 ≠ 0 then (r.1, r.2) else (0, { r.2 with driver_registered := true })

def ipc127_led_init (env : Env) (fw : dmi_ident) (s : State) : Int × State :=
  if !(dmi_match fw .DMI_SYS_VENDOR "SIEMENS AG" &&
       dmi_match fw .DMI_PRODUCT_NAME "SIMATIC IPC127E") then
    (-ENODEV, pr_err "No SIMATIC IPC127E detected.\n" s)
  else
    let s := emit .platform_device_register_simple s
    if env.pdev_register ≠ 0 then
      (env.pdev_register, pr_err "Device allocation failed\n" s)
    else
      let s := { s with pdev_registered := true }
      let r := platform_driver_probe env s
      if r.1 ≠ 0 then
        let s := pr_err "Probe platform driver failed\n" r.2
        let s := emit .platform_device_unregister { s with pdev_registered := false }
        (r.1, s)
      else
        (r.1, r.2)

/-- The `for` loop of the exit routine over the profile entries from `i` on. -/
def exit_loop : List ipc127_led_profile_t → Nat → State → State
  | [], _, s => s
  | _ :: rest, i, s => exit_loop rest (i + 1) (led_classdev_unregister i s)

def ipc127_led_exit (s : State) : State :=
  let s := exit_loop ipc127_led_profile 0 s
  let s := emit .platform_device_unregister { s with pdev_registered := false }
  emit .platform_driver_unregister { s with driver_registered := false }

/-! ### Auxiliary definitions for the statements and proofs -/

/-- Indices on which `led_classdev_unregister` is called, in call order. -/
def unregistered (tr : List Event) : List Nat :=
  tr.filterMap fun e => match e with
    | .led_classdev_unregister i => some i
    | _ => none

/-- The class device the probe fills in for a profile entry. -/
def cdev_of (p : ipc127_led_profile_t) : led_classdev :=
  { name := p.name, brightness := p.brightness, max_brightness := 1,
    flags := [.LED_CORE_SUSPENDRESUME], brightness_set := true }

/-- State after the loop body up to and including the `devm_ioremap` call. -/
def step_map (ok : Bool) (p : ipc127_led_profile_t) (i : Nat) (s : State) : State :=
  let s := set_pled i { (s.pled i) with cdev := cdev_of p } s
  let s := emit (.devm_ioremap p.offset) s
  set_pled i { (s.pled i) with addr := if ok then p.offset else 0 } s

/-- State after the loop body up to and including the `led_classdev_register` call. -/
def step_reg (p : ipc127_led_profile_t) (i : Nat) (s : State) : State :=
  emit (.led_classdev_register i (cdev_of p)) (step_map true p i s)

/-- State after one complete pass through the loop body. -/
def step_ok (p : ipc127_led_profile_t) (i : Nat) (s : State) : State :=
  let s := step_reg p i s
  ipc127_led_brightness_set i p.brightness { s with led_registered := s.led_registered ++ [i] }

/-- An environment in which only the `devm_ioremap` call for entry 2 fails. -/
def env_map_fail_2 : Env :=
  { kzalloc_ok := true, kcalloc_ok := true, ioremap_ok := fun i => decide (i ≠ 2),
    led_register := fun _ => 0, pdev_register := 0, driver_register := 0 }

/-- State after clean passes through the loop body for all entries of `ps`. -/
def steps_ok : List ipc127_led_profile_t → Nat → State → State
  | [], _, s => s
  | p :: rest, i, s => steps_ok rest (i + 1) (step_ok p i s)

/-- Kernel calls of one clean pass through the loop body. -/
def body_events (i : Nat) (p : ipc127_led_profile_t) : List Event :=
  [ .devm_ioremap p.offset,
    .led_classdev_register i (cdev_of p),
    .spin_lock,
    .iowrite8 (if p.brightness ≠ 0 then IPC127_LEDON else IPC127_LEDOFF) p.offset,
    .spin_unlock ]

/-- Kernel calls of clean passes for all entries of `ps`, the first at index `i`. -/
def loop_events : List ipc127_led_profile_t → Nat → List Event
  | [], _ => []
  | p :: rest, i => body_events i p ++ loop_events rest (i + 1)

/-- State in which the probe enters its loop. -/
def probe_entry (s : State) : State :=
  emit .spin_lock_init
    { (emit (.devm_kcalloc ipc127_led_profile.length) (emit .devm_kzalloc s)) with
      pled := fun _ => ipc127_led_priv.zero, leds_pdev := true }

/-- Class devices handed to `led_classdev_register`, with their index, in call order. -/
def registered_cdevs (tr : List Event) : List (Nat × led_classdev) :=
  tr.filterMap fun e => match e with
    | .led_classdev_register i c => some (i, c)
    | _ => none

/-- An environment in which no kernel call fails. -/
def env_ok : Env :=
  { kzalloc_ok := true, kcalloc_ok := true, ioremap_ok := fun _ => true,
    led_register := fun _ => 0, pdev_register := 0, driver_register := 0 }

/-- What the probe never touches: the platform device, the platform driver and
the log; and the trace only grows. -/
def Frame (s t : State) : Prop :=
  t.pdev_registered = s.pdev_registered ∧ t.driver_registered = s.driver_registered
    ∧ t.log = s.log ∧ ∃ evs, t.trace = s.trace ++ evs

/-- State of `ipc127_led_init` right after a successful
`platform_device_register_simple`. -/
def pdev_added (s : State) : State :=
  { (emit .platform_device_register_simple s) with pdev_registered := true }

/-- Module state that `ipc127_led_init` finds: no LED, no platform device and no
platform driver registered. -/
def Clean (s : State) : Prop :=
  s.led_registered = [] ∧ s.pdev_registered = false ∧ s.driver_registered = false

/-- An environment in which only `led_classdev_register` for entry 4 fails, with
error code -16. -/
def env_reg_fail_4 : Env :=
  { kzalloc_ok := true, kcalloc_ok := true, ioremap_ok := fun _ => true,
    led_register := fun i => if i = 4 then -16 else 0, pdev_register := 0,
    driver_register := 0 }

end IPC127

namespace EM32x

/-! ## os-em32x.c -/

def EM320_PCA4554_I2C_ADDR : Nat := 0x22

structure pca953x_platform_data where
  gpio_base : Nat
  invert : Nat
  irq_base : Int
deriving DecidableEq, Repr

def em320_led_gpio_data : pca953x_platform_data :=
  { gpio_base := 0, invert := 0, irq_base := -1 }

structure i2c_board_info where
  type : String
  addr : Nat
  platform_data : pca953x_platform_data
deriving DecidableEq, Repr

def em320_board_info : List i2c_board_info :=
  [ { type := "pca9554", addr := EM320_PCA4554_I2C_ADDR, platform_data := em320_led_gpio_data } ]

structure gpio_led where
  name : String
  gpio : Nat
  default_trigger : String
  active_low : Nat
deriving DecidableEq, Repr

def geos_leds : List gpio_led :=
  [ { name := "red:disk-0", gpio := 0, default_trigger := "default-off", active_low := 1 },
    { name := "red:disk-1", gpio := 1, default_trigger := "default-off", active_low := 1 },
    { name := "red:disk-2", gpio := 2, default_trigger := "default-off", active_low := 1 },
    { name := "red:disk-3", gpio := 3, default_trigger := "default-off", active_low := 1 },
    { name := "blue:status-0", gpio := 7, default_trigger := "default-off", active_low := 1 },
    { name := "blue:status-1", gpio := 6, default_trigger := "default-off", active_low := 1 },
    { name := "blue:status-2", gpio := 5, default_trigger := "default-off", active_low := 1 },
    { name := "blue:status-3", gpio := 4, default_trigger := "default-off", active_low := 1 } ]

structure gpio_led_platform_data where
  num_leds : Nat
  leds : List gpio_led
deriving DecidableEq, Repr

def em320_leds_data : gpio_led_platform_data :=
  { num_leds := geos_leds.length, leds := geos_leds }

structure platform_device where
  name : String
  id : Int
  platform_data : gpio_led_platform_data
deriving DecidableEq, Repr

def em320_leds_dev : platform_device :=
  { name := "leds-gpio", id := -1, platform_data := em320_leds_data }

def em320_devs : List platform_device :=
  [ em320_leds_dev ]

structure os_dev_config where
  i2c_bus : Int
  i2c_devices : List i2c_board_info
  num_i2c_devices : Nat
  plat_devs : List platform_device
  num_plat_devs : Nat
deriving DecidableEq, Repr

def em320_config : os_dev_config :=
  { i2c_bus := 0,
    i2c_devices := em320_board_info,
    num_i2c_devices := em320_board_info.length,
    plat_devs := em320_devs,
    num_plat_devs := em320_devs.length }

/-- Kernel calls made by the driver, in the order they are made. -/
inductive Event where
  | i2c_get_adapter (bus : Int)
  | i2c_new_client_device (info : List i2c_board_info)
  | i2c_put_adapter
  | platform_add_devices (devs : List platform_device) (num : Nat)
  | i2c_unregister_device
  | platform_device_unregister (dev : Option platform_device)
deriving DecidableEq, Repr

/-- The static pointer `client`. -/
inductive client_ptr where
  | null
  | valid
  | err (e : Int)
deriving DecidableEq, Repr

/-- Outcomes of the kernel calls that may fail. -/
structure Env where
  /-- Whether `i2c_get_adapter` finds an adapter for the bus. -/
  i2c_get_adapter : Int → Bool
  /-- Outcome of `i2c_new_client_device`: `none` for a valid client, `some e` for `ERR_PTR(e)`. -/
  i2c_new_client_device : Option Int
  /-- Return value of `platform_add_devices`. -/
  platform_add_devices : Int
  /-- What the memory right behind `os_dmi_table` reads as, entry by entry; the
  table has no closing entry of its own, so a walk that passes its two entries
  goes on there. -/
  behind : List (dmi_system_id os_dev_config)

/-- Machine state: the driver's globals and what the kernel holds for it. -/
structure State where
  dev_config : Option os_dev_config
  client : client_ptr
  /-- The I2C client of the GPIO expander is registered. -/
  i2c_registered : Bool
  /-- Platform devices currently registered. -/
  plat_registered : List platform_device
  trace : List Event
  log : List String
deriving DecidableEq, Repr

/-- State at module load. -/
def State.init : State :=
  { dev_config := none, client := .null, i2c_registered := false, plat_registered := [],
    trace := [], log := [] }

def emit (e : Event) (s : State) : State :=
  { s with trace := s.trace ++ [e] }

def pr_info (msg : String) (s : State) : State :=
  { s with log := s.log ++ [msg] }

def pr_err (msg : String) (s : State) : State :=
  { s with log := s.log ++ [msg] }

/-- Modelled from the spec: platform_add_devices is a kernel helper that is not
under src/; it registers the whole bundle of platform devices or, on failure,
none of them, and returns 0 or the error. -/
def platform_add_devices (env : Env) (devs : List platform_device) (num : Nat) (s : State) :
    Int × State :=
  let s := emit (.platform_add_devices devs num) s
  if env.platform_add_devices = 0 then
    (0, { s with plat_registered := s.plat_registered ++ devs.take num })
  else
    (env.platform_add_devices, s)

def i2c_unregister_device (s : State) : State :=
  emit .i2c_unregister_device { s with i2c_registered := false }

def platform_device_unregister (dev : Option platform_device) (s : State) : State :=
  emit (.platform_device_unregister dev)
    { s with plat_registered := match dev with
        | some d => s.plat_registered.erase d
        | none => s.plat_registered }

def dmi_check_cb (dmi : dmi_system_id os_dev_config) (s : State) : Int × State :=
  let s := pr_info ("Found Operational Services device '" ++ dmi.ident ++ "'\n") s
  (1, { s with dev_config := dmi.driver_data })

def os_dmi_table : List (dmi_system_id os_dev_config) :=
  [ { ident := "EM320",
      strmatches := [ DMI_MATCH .DMI_SYS_VENDOR "Axiomtek Co., Ltd",
                   DMI_MATCH .DMI_PRODUCT_NAME "EM320" ],
      driver_data := some em320_config,
      callback := true },
    { ident := "EM321",
      strmatches := [ DMI_MATCH .DMI_SYS_VENDOR "Axiomtek Co., Ltd",
                   DMI_MATCH .DMI_PRODUCT_NAME "EM321" ],
      driver_data := some em320_config,
      callback := true } ]

/-- Outcome of `os_init`: a return value, or a fault: the walk over the
identification entries leaves the memory the environment describes, or a NULL
`dev_config` is dereferenced. -/
inductive Result where
  | ret (code : Int) (s : State)
  | out_of_bounds (index : Nat) (s : State)
  | null_deref (s : State)
deriving DecidableEq, Repr

def os_init (env : Env) (fw : dmi_ident) (s : State) : Result :=
  let s := pr_info "Checking for OS devices...\n" s
  match dmi_check_system dmi_check_cb fw (os_dmi_table ++ env.behind) 0 0 s with
  | .out_of_bounds i s => .out_of_bounds i s
  | .done count s =>
    if count = 0 then .ret (-ENODEV) s else
    match s.dev_config with
    | none => .null_deref s
    | some cfg =>
      let s := emit (.i2c_get_adapter cfg.i2c_bus) s
      if !env.i2c_get_adapter cfg.i2c_bus then
        .ret (-ENODEV)
          (pr_err ("Cannot get i2c adapter for bus " ++ toString cfg.i2c_bus ++ "\n") s)
      else
        let s := emit (.i2c_new_client_device cfg.i2c_devices) s
        let s := match env.i2c_new_client_device with
          | none => { s with client := .valid, i2c_registered := true }
          | some e => { s with client := .err e }
        let s := emit .i2c_put_adapter s
        match s.client with
        | .err e => .ret e (pr_err "Cannot create i2c device\n" s)
        | _ =>
          let r := platform_add_devices env cfg.plat_devs cfg.num_plat_devs s
          if r.1 < 0 then
            .ret r.1 (i2c_unregister_device (pr_err "Cannot register platform devices\n" r.2))
          else
            .ret r.1 r.2

def os_exit (s : State) : State :=
  let s := pr_info "exiting...\n" s
  if s.client ≠ .null then
    let s := i2c_unregister_device s
    platform_device_unregister em320_devs[0]? s
  else
    s

/-! ### Auxiliary definitions for the statements and proofs -/

/-- State a finished `os_init` leaves behind. -/
def Result.state : Result → State
  | .ret _ s => s
  | .out_of_bounds _ s => s
  | .null_deref s => s

/-- Return value of `os_init`, when it returns. -/
def Result.code : Result → Option Int
  | .ret c _ => some c
  | .out_of_bounds _ _ => none
  | .null_deref _ => none

/-- The firmware strings that `os_dmi_table` describes. -/
def Recognized (fw : dmi_ident) : Prop :=
  fw.sys_vendor = "Axiomtek Co., Ltd" ∧ (fw.product_name = "EM320" ∨ fw.product_name = "EM321")

instance (fw : dmi_ident) : Decidable (Recognized fw) := by
  unfold Recognized
  infer_instance

/-- State after the scan has found the entry `ident`. -/
def found (ident : String) (s : State) : State :=
  { (pr_info ("Found Operational Services device '" ++ ident ++ "'\n") s) with
    dev_config := some em320_config }

/-- The part of `os_init` that follows a successful identification, with
`dev_config` pointing at `cfg`. -/
def attach (env : Env) (cfg : os_dev_config) (s : State) : Result :=
  let s := emit (.i2c_get_adapter cfg.i2c_bus) s
  if !env.i2c_get_adapter cfg.i2c_bus then
    .ret (-ENODEV)
      (pr_err ("Cannot get i2c adapter for bus " ++ toString cfg.i2c_bus ++ "\n") s)
  else
    let s := emit (.i2c_new_client_device cfg.i2c_devices) s
    let s := match env.i2c_new_client_device with
      | none => { s with client := .valid, i2c_registered := true }
      | some e => { s with client := .err e }
    let s := emit .i2c_put_adapter s
    match s.client with
    | .err e => .ret e (pr_err "Cannot create i2c device\n" s)
    | _ =>
      let r := platform_add_devices env cfg.plat_devs cfg.num_plat_devs s
      if r.1 < 0 then
        .ret r.1 (i2c_unregister_device (pr_err "Cannot register platform devices\n" r.2))
      else
        .ret r.1 r.2

/-- State of `os_init` right after the I2C client has been created. -/
def client_added (s : State) : State :=
  emit .i2c_put_adapter
    { (emit (.i2c_new_client_device em320_board_info) (emit (.i2c_get_adapter 0) s)) with
      client := .valid, i2c_registered := true }

/-- An environment in which the adapter is found, the client is created and
`platform_add_devices` fails with -12. -/
def env_plat_fail : Env :=
  { i2c_get_adapter := fun _ => true, i2c_new_client_device := none,
    platform_add_devices := -12, behind := [dmi_system_id.terminator] }

/-- An environment in which no kernel call fails and the memory behind
`os_dmi_table` is zero. -/
def env_ok : Env :=
  { i2c_get_adapter := fun _ => true, i2c_new_client_device := none,
    platform_add_devices := 0, behind := [dmi_system_id.terminator] }

/-- What the identification walk leaves alone: the trace of kernel calls, the
registrations and `client`. -/
def Kept (s t : State) : Prop :=
  t.trace = s.trace ∧ t.i2c_registered = s.i2c_registered
    ∧ t.plat_registered = s.plat_registered ∧ t.client = s.client

end EM32x

namespace IPC127

/-! ## Theorems on leds-siemens-ipc127.c -/

theorem probe_loop_map_fail (env : Env) (p : ipc127_led_profile_t)
    (rest : List ipc127_led_profile_t) (i : Nat) (s : State)
    (h : env.ioremap_ok i = false) :
    probe_loop env (p :: rest) i s = (-ENOMEM, probe_error i (step_map false p i s)) := by
  simp [probe_loop, step_map, cdev_of, h]

theorem probe_loop_reg_fail (env : Env) (p : ipc127_led_profile_t)
    (rest : List ipc127_led_profile_t) (i : Nat) (s : State)
    (hm : env.ioremap_ok i = true) (hp : p.offset ≠ 0) (h : env.led_register i ≠ 0) :
    probe_loop env (p :: rest) i s = (env.led_register i, probe_error i (step_reg p i s)) := by
  simp [probe_loop, step_reg, step_map, cdev_of, h, hm, hp]

theorem probe_loop_ok (env : Env) (p : ipc127_led_profile_t)
    (rest : List ipc127_led_profile_t) (i : Nat) (s : State)
    (hm : env.ioremap_ok i = true) (hp : p.offset ≠ 0) (h : env.led_register i = 0) :
    probe_loop env (p :: rest) i s = probe_loop env rest (i + 1) (step_ok p i s) := by
  simp [probe_loop, step_ok, step_reg, step_map, cdev_of, h, hm, hp]

theorem unregistered_append (a b : List Event) :
    unregistered (a ++ b) = unregistered a ++ unregistered b := by
  simp [unregistered, List.filterMap_append]

theorem probe_error_unregistered (n : Nat) (s : State) :
    unregistered (probe_error n s).trace = unregistered s.trace ++ (List.range n).reverse := by
  induction n generalizing s with
  | zero => simp [probe_error]
  | succ n ih =>
    rw [probe_error, ih, List.range_succ, List.reverse_append]
    simp [led_classdev_unregister, emit, unregistered_append, unregistered]

theorem probe_error_led_registered (n : Nat) (s : State)
    (h : s.led_registered = List.range n) : (probe_error n s).led_registered = [] := by
  induction n generalizing s with
  | zero => simpa [probe_error] using h
  | succ n ih =>
    rw [probe_error]
    apply ih
    simp [led_classdev_unregister, emit, h, List.range_succ,
      List.erase_append_right _ (List.not_mem_range_self)]

theorem probe_error_regs (n : Nat) (s : State) : (probe_error n s).regs = s.regs := by
  induction n generalizing s with
  | zero => rfl
  | succ n ih => rw [probe_error, ih]; rfl

theorem step_map_unregistered (ok : Bool) (p : ipc127_led_profile_t) (i : Nat) (s : State) :
    unregistered (step_map ok p i s).trace = unregistered s.trace := by
  simp [step_map, set_pled, emit, unregistered_append, unregistered]

theorem step_reg_unregistered (p : ipc127_led_profile_t) (i : Nat) (s : State) :
    unregistered (step_reg p i s).trace = unregistered s.trace := by
  simp [step_reg, step_map, set_pled, emit, unregistered_append, unregistered]

theorem step_ok_unregistered (p : ipc127_led_profile_t) (i : Nat) (s : State) :
    unregistered (step_ok p i s).trace = unregistered s.trace := by
  simp [step_ok, step_reg, step_map, set_pled, emit, unregistered_append, unregistered,
    ipc127_led_brightness_set, iowrite8]

theorem step_map_led_registered (ok : Bool) (p : ipc127_led_profile_t) (i : Nat) (s : State) :
    (step_map ok p i s).led_registered = s.led_registered := rfl

theorem step_reg_led_registered (p : ipc127_led_profile_t) (i : Nat) (s : State) :
    (step_reg p i s).led_registered = s.led_registered := rfl

theorem step_ok_led_registered (p : ipc127_led_profile_t) (i : Nat) (s : State) :
    (step_ok p i s).led_registered = s.led_registered ++ [i] := rfl

/-- A failure at the `k`-th entry still to do, after `k` clean passes, ends in the
rollback of everything registered so far. -/
theorem probe_loop_rollback (env : Env) (k : Nat) :
    ∀ (ps : List ipc127_led_profile_t) (i : Nat) (s : State),
      k < ps.length → (∀ p ∈ ps, p.offset ≠ 0) →
      (∀ j, j < k → env.ioremap_ok (i + j) = true ∧ env.led_register (i + j) = 0) →
      (env.ioremap_ok (i + k) = false ∨ env.led_register (i + k) ≠ 0) →
      s.led_registered = List.range i →
      unregistered (probe_loop env ps i s).2.trace
          = unregistered s.trace ++ (List.range (i + k)).reverse
        ∧ (probe_loop env ps i s).2.led_registered = []
        ∧ (probe_loop env ps i s).1
            = (if env.ioremap_ok (i + k) = false then -ENOMEM else env.led_register (i + k)) := by
  induction k with
  | zero =>
    intro ps i s hlen hoff _ hfail hs
    match ps, hlen with
    | p :: rest, _ =>
      have hp : p.offset ≠ 0 := hoff p (by simp)
      simp only [Nat.add_zero] at hfail ⊢
      by_cases hm : env.ioremap_ok i = false
      · rw [probe_loop_map_fail env p rest i s hm]
        simp [hm, probe_error_unregistered, step_map_unregistered,
          probe_error_led_registered _ _ ((step_map_led_registered false p i s).trans hs)]
      · have hm1 : env.ioremap_ok i = true := by simpa using hm
        have hr : env.led_register i ≠ 0 := by
          rcases hfail with h | h
          · exact absurd h hm
          · exact h
        rw [probe_loop_reg_fail env p rest i s hm1 hp hr]
        simp [hm1, probe_error_unregistered, step_reg_unregistered,
          probe_error_led_registered _ _ ((step_reg_led_registered p i s).trans hs)]
  | succ k ih =>
    intro ps i s hlen hoff hprev hfail hs
    match ps, hlen with
    | p :: rest, hlen =>
      have hp : p.offset ≠ 0 := hoff p (by simp)
      have h0 := hprev 0 (Nat.succ_pos k)
      simp only [Nat.add_zero] at h0
      rw [probe_loop_ok env p rest i s h0.1 hp h0.2]
      have hidx : ∀ j, i + 1 + j = i + (j + 1) := fun j => by omega
      have := ih rest (i + 1) (step_ok p i s)
        (by simpa using hlen)
        (fun q hq => hoff q (by simp [hq]))
        (fun j hj => by rw [hidx]; exact hprev (j + 1) (by omega))
        (by rw [hidx]; exact hfail)
        (by rw [step_ok_led_registered, hs, List.range_succ])
      rw [hidx k, step_ok_unregistered] at this
      exact this

theorem ipc127_led_profile_offset_ne_zero :
    ∀ p ∈ ipc127_led_profile, p.offset ≠ 0 := by
  decide

/-- C1: when the allocations succeed, entries `0 .. k-1` map and register cleanly
and entry `k < 6` fails (its `devm_ioremap` returns NULL, or its
`led_classdev_register` returns non-zero), the probe calls
`led_classdev_unregister` on exactly `k-1, k-2, ..., 0` in that order, leaves no
LED registered, and returns a non-zero error: `-ENOMEM` for the mapping failure,
the registration's error code otherwise. -/
theorem probe_failure_rolls_back (env : Env) (s : State) (k : Nat)
    (hk : k < ipc127_led_profile.length)
    (hkz : env.kzalloc_ok = true) (hkc : env.kcalloc_ok = true)
    (hprev : ∀ j, j < k → env.ioremap_ok j = true ∧ env.led_register j = 0)
    (hfail : env.ioremap_ok k = false ∨ env.led_register k ≠ 0)
    (hs : s.led_registered = []) :
    unregistered (ipc127_led_probe env s).2.trace
        = unregistered s.trace ++ (List.range k).reverse
      ∧ (∀ j, k ≤ j → j ∉ (unregistered (ipc127_led_probe env s).2.trace).drop
            (unregistered s.trace).length)
      ∧ (ipc127_led_probe env s).2.led_registered = []
      ∧ (ipc127_led_probe env s).1 ≠ 0
      ∧ (ipc127_led_probe env s).1
          = (if env.ioremap_ok k = false then -ENOMEM else env.led_register k) := by
  have key := probe_loop_rollback env k ipc127_led_profile 0
    (emit .spin_lock_init
      { (emit (.devm_kcalloc ipc127_led_profile.length) (emit .devm_kzalloc s)) with
        pled := fun _ => ipc127_led_priv.zero, leds_pdev := true })
    hk ipc127_led_profile_offset_ne_zero
    (fun j hj => by simpa using hprev j hj) (by simpa using hfail)
    (by simpa [emit] using hs)
  have hprobe : ipc127_led_probe env s = probe_loop env ipc127_led_profile 0
      (emit .spin_lock_init
        { (emit (.devm_kcalloc ipc127_led_profile.length) (emit .devm_kzalloc s)) with
          pled := fun _ => ipc127_led_priv.zero, leds_pdev := true }) := by
    simp [ipc127_led_probe, hkz, hkc]
  rw [hprobe]
  obtain ⟨h1, h2, h3⟩ := key
  simp only [Nat.zero_add] at h1 h3
  have htr : unregistered (emit .spin_lock_init
      { (emit (.devm_kcalloc ipc127_led_profile.length) (emit .devm_kzalloc s)) with
        pled := fun _ => ipc127_led_priv.zero, leds_pdev := true }).trace
      = unregistered s.trace := by
    simp [emit, unregistered_append, unregistered]
  rw [htr] at h1
  refine ⟨h1, ?_, h2, ?_, h3⟩
  · intro j hj
    rw [h1, List.drop_left]
    simp only [List.mem_reverse, List.mem_range]
    omega
  · rw [h3]
    split
    · simp [ENOMEM]
    · rcases hfail with h | h
      · contradiction
      · exact h

theorem probe_failure_rolls_back_witness :
    (2 < ipc127_led_profile.length)
      ∧ env_map_fail_2.kzalloc_ok = true ∧ env_map_fail_2.kcalloc_ok = true
      ∧ (∀ j, j < 2 → env_map_fail_2.ioremap_ok j = true ∧ env_map_fail_2.led_register j = 0)
      ∧ (env_map_fail_2.ioremap_ok 2 = false ∨ env_map_fail_2.led_register 2 ≠ 0)
      ∧ (State.init fun _ => 0).led_registered = []
      ∧ (unregistered (ipc127_led_probe env_map_fail_2 (State.init fun _ => 0)).2.trace
          = unregistered (State.init fun _ => 0).trace ++ (List.range 2).reverse
        ∧ (∀ j, 2 ≤ j →
            j ∉ (unregistered (ipc127_led_probe env_map_fail_2 (State.init fun _ => 0)).2.trace).drop
              (unregistered (State.init fun _ => 0).trace).length)
        ∧ (ipc127_led_probe env_map_fail_2 (State.init fun _ => 0)).2.led_registered = []
        ∧ (ipc127_led_probe env_map_fail_2 (State.init fun _ => 0)).1 ≠ 0
        ∧ (ipc127_led_probe env_map_fail_2 (State.init fun _ => 0)).1
            = (if env_map_fail_2.ioremap_ok 2 = false then -ENOMEM
               else env_map_fail_2.led_register 2)) :=
  ⟨by decide, rfl, rfl, by decide, Or.inl rfl, rfl,
    probe_failure_rolls_back env_map_fail_2 (State.init fun _ => 0) 2 (by decide) rfl rfl
      (by decide) (Or.inl rfl) rfl⟩

/-- The six register addresses of the profile are pairwise distinct. -/
theorem ipc127_led_profile_offsets_distinct (i j : Nat) (p q : ipc127_led_profile_t)
    (hp : ipc127_led_profile[i]? = some p) (hq : ipc127_led_profile[j]? = some q)
    (hij : i ≠ j) : p.offset ≠ q.offset := by
  have hi : i < 6 := by
    by_contra h
    rw [List.getElem?_eq_none (by simpa [ipc127_led_profile] using h)] at hp
    cases hp
  have hj : j < 6 := by
    by_contra h
    rw [List.getElem?_eq_none (by simpa [ipc127_led_profile] using h)] at hq
    cases hq
  interval_cases i <;> interval_cases j <;>
    first
    | exact absurd rfl hij
    | (simp only [ipc127_led_profile, List.getElem?_cons_zero, List.getElem?_cons_succ,
        Option.some.injEq] at hp hq
       subst hp; subst hq; decide)

theorem probe_loop_all_ok (env : Env) :
    ∀ (ps : List ipc127_led_profile_t) (i : Nat) (s : State),
      (∀ p ∈ ps, p.offset ≠ 0) →
      (∀ j, j < ps.length → env.ioremap_ok (i + j) = true ∧ env.led_register (i + j) = 0) →
      probe_loop env ps i s = (0, steps_ok ps i s) := by
  intro ps
  induction ps with
  | nil => intro i s _ _; rfl
  | cons p rest ih =>
    intro i s hoff hok
    have h0 := hok 0 (by simp)
    simp only [Nat.add_zero] at h0
    rw [probe_loop_ok env p rest i s h0.1 (hoff p (by simp)) h0.2, steps_ok]
    apply ih
    · exact fun q hq => hoff q (by simp [hq])
    · intro j hj
      have := hok (j + 1) (by simpa using hj)
      rwa [show i + 1 + j = i + (j + 1) by omega]

theorem ipc127_led_probe_all_ok (env : Env) (s : State)
    (hkz : env.kzalloc_ok = true) (hkc : env.kcalloc_ok = true)
    (hok : ∀ j, j < ipc127_led_profile.length →
      env.ioremap_ok j = true ∧ env.led_register j = 0) :
    ipc127_led_probe env s = (0, steps_ok ipc127_led_profile 0 (probe_entry s)) := by
  have := probe_loop_all_ok env ipc127_led_profile 0 (probe_entry s)
    ipc127_led_profile_offset_ne_zero (fun j hj => by simpa using hok j hj)
  rw [← this]
  simp [ipc127_led_probe, probe_entry, hkz, hkc]

theorem steps_ok_trace (ps : List ipc127_led_profile_t) :
    ∀ (i : Nat) (s : State), (steps_ok ps i s).trace = s.trace ++ loop_events ps i := by
  induction ps with
  | nil => intro i s; simp [steps_ok, loop_events]
  | cons p rest ih =>
    intro i s
    rw [steps_ok, ih, loop_events]
    simp [step_ok, step_reg, step_map, ipc127_led_brightness_set, iowrite8, emit, set_pled,
      body_events]

theorem steps_ok_led_registered (ps : List ipc127_led_profile_t) :
    ∀ (i : Nat) (s : State),
      (steps_ok ps i s).led_registered = s.led_registered ++ List.range' i ps.length := by
  induction ps with
  | nil => intro i s; simp [steps_ok]
  | cons p rest ih =>
    intro i s
    rw [steps_ok, ih, step_ok_led_registered]
    simp [List.range'_succ]

theorem profile_index_lt (i : Nat) (p : ipc127_led_profile_t)
    (hp : ipc127_led_profile[i]? = some p) : i < 6 := by
  by_contra h
  rw [List.getElem?_eq_none (by simpa [ipc127_led_profile] using h)] at hp
  cases hp

theorem steps_ok_profile_state (s : State) (i : Nat) (p : ipc127_led_profile_t)
    (hp : ipc127_led_profile[i]? = some p) :
    (steps_ok ipc127_led_profile 0 s).regs p.offset = IPC127_LEDOFF
      ∧ (steps_ok ipc127_led_profile 0 s).pled i = { cdev := cdev_of p, addr := p.offset } := by
  have hi := profile_index_lt i p hp
  interval_cases i <;>
    (simp only [ipc127_led_profile, List.getElem?_cons_zero, List.getElem?_cons_succ,
        Option.some.injEq] at hp
     subst hp
     simp [steps_ok, step_ok, step_reg, step_map, ipc127_led_brightness_set, iowrite8, emit,
       set_pled, ipc127_led_profile, IPC127_FCH_GPIO_BASE, IPC127_FCH_ACPI_MMIO_BASE, LED_OFF,
       IPC127_LEDOFF, cdev_of])

theorem registered_cdevs_append (a b : List Event) :
    registered_cdevs (a ++ b) = registered_cdevs a ++ registered_cdevs b := by
  simp [registered_cdevs, List.filterMap_append]

/-- C9: when every allocation, mapping and registration succeeds, the probe
returns 0; it has registered exactly the six LEDs 0..5 in table order, LED `i`
with the name and initial brightness of profile entry `i` and `max_brightness`
1; each pass maps, registers, and right after the registration writes the
LED's initial state to its own register under the lock; and each of the six
registers (base 0xD0C50500 plus 0x1A0, 0x1A8, 0x1C8, 0x1D0, 0x1E0, 0x198) holds
the byte 0x01 on return. -/
theorem probe_success (env : Env) (s : State)
    (hkz : env.kzalloc_ok = true) (hkc : env.kcalloc_ok = true)
    (hok : ∀ j, j < ipc127_led_profile.length →
      env.ioremap_ok j = true ∧ env.led_register j = 0) :
    (ipc127_led_probe env s).1 = 0
      ∧ (ipc127_led_probe env s).2.led_registered = s.led_registered ++ [0, 1, 2, 3, 4, 5]
      ∧ (ipc127_led_probe env s).2.trace
          = s.trace ++ [.devm_kzalloc, .devm_kcalloc 6, .spin_lock_init]
              ++ loop_events ipc127_led_profile 0
      ∧ registered_cdevs (ipc127_led_probe env s).2.trace
          = registered_cdevs s.trace ++
            [ (0, { name := "ipc127:red:1", brightness := 0, max_brightness := 1,
                    flags := [.LED_CORE_SUSPENDRESUME], brightness_set := true }),
              (1, { name := "ipc127:green:1", brightness := 0, max_brightness := 1,
                    flags := [.LED_CORE_SUSPENDRESUME], brightness_set := true }),
              (2, { name := "ipc127:red:2", brightness := 0, max_brightness := 1,
                    flags := [.LED_CORE_SUSPENDRESUME], brightness_set := true }),
              (3, { name := "ipc127:green:2", brightness := 0, max_brightness := 1,
                    flags := [.LED_CORE_SUSPENDRESUME], brightness_set := true }),
              (4, { name := "ipc127:red:3", brightness := 0, max_brightness := 1,
                    flags := [.LED_CORE_SUSPENDRESUME], brightness_set := true }),
              (5, { name := "ipc127:green:3", brightness := 0, max_brightness := 1,
                    flags := [.LED_CORE_SUSPENDRESUME], brightness_set := true }) ]
      ∧ (∀ i p, ipc127_led_profile[i]? = some p →
          ((ipc127_led_probe env s).2.pled i).cdev.name = p.name
            ∧ ((ipc127_led_probe env s).2.pled i).cdev.brightness = p.brightness
            ∧ ((ipc127_led_probe env s).2.pled i).cdev.max_brightness = 1
            ∧ ((ipc127_led_probe env s).2.pled i).addr = p.offset
            ∧ (ipc127_led_probe env s).2.regs p.offset = 0x01)
      ∧ (ipc127_led_probe env s).2.regs (0xD0C50500 + 0x1A0) = 0x01
      ∧ (ipc127_led_probe env s).2.regs (0xD0C50500 + 0x1A8) = 0x01
      ∧ (ipc127_led_probe env s).2.regs (0xD0C50500 + 0x1C8) = 0x01
      ∧ (ipc127_led_probe env s).2.regs (0xD0C50500 + 0x1D0) = 0x01
      ∧ (ipc127_led_probe env s).2.regs (0xD0C50500 + 0x1E0) = 0x01
      ∧ (ipc127_led_probe env s).2.regs (0xD0C50500 + 0x198) = 0x01 := by
  rw [ipc127_led_probe_all_ok env s hkz hkc hok]
  have hst := steps_ok_profile_state (probe_entry s)
  have htr : (steps_ok ipc127_led_profile 0 (probe_entry s)).trace
      = s.trace ++ [.devm_kzalloc, .devm_kcalloc 6, .spin_lock_init]
          ++ loop_events ipc127_led_profile 0 := by
    rw [steps_ok_trace]
    simp [probe_entry, emit, ipc127_led_profile]
  refine ⟨rfl, ?_, htr, ?_, ?_, ?_, ?_, ?_, ?_, ?_, ?_⟩
  · rw [steps_ok_led_registered]
    simp [probe_entry, emit, ipc127_led_profile, List.range']
  · rw [htr, registered_cdevs_append, registered_cdevs_append]
    simp [registered_cdevs, loop_events, body_events, ipc127_led_profile, cdev_of, LED_OFF]
  · intro i p hp
    obtain ⟨h1, h2⟩ := hst i p hp
    rw [h2]
    exact ⟨rfl, rfl, rfl, rfl, h1⟩
  · exact (hst 0 _ rfl).1
  · exact (hst 1 _ rfl).1
  · exact (hst 2 _ rfl).1
  · exact (hst 3 _ rfl).1
  · exact (hst 4 _ rfl).1
  · exact (hst 5 _ rfl).1

theorem probe_success_witness :
    env_ok.kzalloc_ok = true ∧ env_ok.kcalloc_ok = true
      ∧ (∀ j, j < ipc127_led_profile.length →
          env_ok.ioremap_ok j = true ∧ env_ok.led_register j = 0)
      ∧ (ipc127_led_probe env_ok (State.init fun _ => 0)).1 = 0
      ∧ (ipc127_led_probe env_ok (State.init fun _ => 0)).2.led_registered = [0, 1, 2, 3, 4, 5]
      ∧ (ipc127_led_probe env_ok (State.init fun _ => 0)).2.regs (0xD0C50500 + 0x198) = 0x01 :=
  have h := probe_success env_ok (State.init fun _ => 0) rfl rfl (fun _ _ => ⟨rfl, rfl⟩)
  ⟨rfl, rfl, fun _ _ => ⟨rfl, rfl⟩, h.1, h.2.1, h.2.2.2.2.2.2.2.2.2.2⟩

/-- C2: for LED `i` of the profile, mapped by the probe at its profile address,
and any brightness `v`, `ipc127_led_brightness_set` makes exactly one byte write,
under the lock, to LED `i`'s register; the byte is 0x00 when `v` is non-zero and
0x01 when `v` is zero; every other address, in particular the register of every
other LED `j ≠ i` (the profile addresses are pairwise distinct), keeps its
content; nothing else of the state changes.  The callback is a total function
on states: it has no failure result. -/
theorem brightness_set_single_write (s : State) (i v : Nat) (p : ipc127_led_profile_t)
    (hp : ipc127_led_profile[i]? = some p) (hmap : (s.pled i).addr = p.offset) :
    (ipc127_led_brightness_set i v s).trace
        = s.trace ++ [.spin_lock, .iowrite8 (if v ≠ 0 then 0x00 else 0x01) p.offset, .spin_unlock]
      ∧ (ipc127_led_brightness_set i v s).regs p.offset = (if v ≠ 0 then 0x00 else 0x01)
      ∧ (∀ a, a ≠ p.offset → (ipc127_led_brightness_set i v s).regs a = s.regs a)
      ∧ (∀ j q, j ≠ i → ipc127_led_profile[j]? = some q →
          q.offset ≠ p.offset ∧ (ipc127_led_brightness_set i v s).regs q.offset = s.regs q.offset)
      ∧ (ipc127_led_brightness_set i v s).pled = s.pled
      ∧ (ipc127_led_brightness_set i v s).led_registered = s.led_registered
      ∧ (ipc127_led_brightness_set i v s).leds_pdev = s.leds_pdev
      ∧ (ipc127_led_brightness_set i v s).pdev_registered = s.pdev_registered
      ∧ (ipc127_led_brightness_set i v s).driver_registered = s.driver_registered
      ∧ (ipc127_led_brightness_set i v s).log = s.log := by
  have hframe : ∀ a, a ≠ p.offset → (ipc127_led_brightness_set i v s).regs a = s.regs a := by
    intro a ha
    simp [ipc127_led_brightness_set, iowrite8, emit, hmap, ha]
  refine ⟨?_, ?_, hframe, ?_, rfl, rfl, rfl, rfl, rfl, rfl⟩
  · simp [ipc127_led_brightness_set, iowrite8, emit, hmap, IPC127_LEDON, IPC127_LEDOFF]
  · simp [ipc127_led_brightness_set, iowrite8, emit, hmap, IPC127_LEDON, IPC127_LEDOFF]
  · intro j q hji hq
    have hne := ipc127_led_profile_offsets_distinct j i q p hq hp hji
    exact ⟨hne, hframe _ hne⟩

theorem brightness_set_single_write_witness :
    ipc127_led_profile[3]? = some ⟨"ipc127:green:2", 0, 0xD0C50500 + 0x1D0⟩
      ∧ ((ipc127_led_probe env_ok (State.init fun _ => 0)).2.pled 3).addr = 0xD0C50500 + 0x1D0
      ∧ (ipc127_led_brightness_set 3 255 (ipc127_led_probe env_ok (State.init fun _ => 0)).2).regs
          (0xD0C50500 + 0x1D0) = 0x00
      ∧ (ipc127_led_brightness_set 3 255 (ipc127_led_probe env_ok (State.init fun _ => 0)).2).regs
          (0xD0C50500 + 0x1A0)
          = (ipc127_led_probe env_ok (State.init fun _ => 0)).2.regs (0xD0C50500 + 0x1A0) :=
  have h := brightness_set_single_write (ipc127_led_probe env_ok (State.init fun _ => 0)).2 3 255
    ⟨"ipc127:green:2", 0, 0xD0C50500 + 0x1D0⟩ rfl rfl
  ⟨rfl, rfl, h.2.1, h.2.2.1 (0xD0C50500 + 0x1A0) (by decide)⟩

theorem Frame.refl (s : State) : Frame s s :=
  ⟨rfl, rfl, rfl, [], by simp⟩

theorem Frame.trans {s t u : State} (h1 : Frame s t) (h2 : Frame t u) : Frame s u := by
  obtain ⟨a1, b1, c1, e1, d1⟩ := h1
  obtain ⟨a2, b2, c2, e2, d2⟩ := h2
  exact ⟨a2.trans a1, b2.trans b1, c2.trans c1, e1 ++ e2, by rw [d2, d1, List.append_assoc]⟩

theorem probe_error_frame (n : Nat) (s : State) : Frame s (probe_error n s) := by
  induction n generalizing s with
  | zero => exact Frame.refl s
  | succ n ih =>
    rw [probe_error]
    have h : Frame s (led_classdev_unregister n s) :=
      ⟨rfl, rfl, rfl, [.led_classdev_unregister n], rfl⟩
    exact Frame.trans h (ih _)

theorem step_map_frame (ok : Bool) (p : ipc127_led_profile_t) (i : Nat) (s : State) :
    Frame s (step_map ok p i s) :=
  ⟨rfl, rfl, rfl, [.devm_ioremap p.offset], rfl⟩

theorem step_reg_frame (p : ipc127_led_profile_t) (i : Nat) (s : State) :
    Frame s (step_reg p i s) :=
  ⟨rfl, rfl, rfl, [.devm_ioremap p.offset, .led_classdev_register i (cdev_of p)], by
    simp [step_reg, step_map, emit, set_pled]⟩

theorem step_ok_frame (p : ipc127_led_profile_t) (i : Nat) (s : State) :
    Frame s (step_ok p i s) :=
  ⟨rfl, rfl, rfl, body_events i p, by
    simp [step_ok, step_reg, step_map, emit, set_pled, ipc127_led_brightness_set, iowrite8,
      body_events]⟩

/-- The loop either returns 0, or returns non-zero with no LED registered. -/
theorem probe_loop_result (env : Env) :
    ∀ (ps : List ipc127_led_profile_t) (i : Nat) (s : State),
      (∀ p ∈ ps, p.offset ≠ 0) →
      Frame s (probe_loop env ps i s).2
        ∧ (s.led_registered = List.range i → (probe_loop env ps i s).1 ≠ 0 →
            (probe_loop env ps i s).2.led_registered = []) := by
  intro ps
  induction ps with
  | nil => intro i s _; exact ⟨Frame.refl s, fun _ h => absurd rfl h⟩
  | cons p rest ih =>
    intro i s hoff
    have hp : p.offset ≠ 0 := hoff p (by simp)
    by_cases hm : env.ioremap_ok i = true
    · by_cases hr : env.led_register i = 0
      · rw [probe_loop_ok env p rest i s hm hp hr]
        obtain ⟨f, g⟩ := ih (i + 1) (step_ok p i s) (fun q hq => hoff q (by simp [hq]))
        exact ⟨Frame.trans (step_ok_frame p i s) f,
          fun hs => g (by rw [step_ok_led_registered, hs, List.range_succ])⟩
      · rw [probe_loop_reg_fail env p rest i s hm hp hr]
        exact ⟨Frame.trans (step_reg_frame p i s) (probe_error_frame _ _),
          fun hs _ =>
            probe_error_led_registered _ _ ((step_reg_led_registered p i s).trans hs)⟩
    · have hm0 : env.ioremap_ok i = false := by simpa using hm
      rw [probe_loop_map_fail env p rest i s hm0]
      exact ⟨Frame.trans (step_map_frame false p i s) (probe_error_frame _ _),
        fun hs _ =>
          probe_error_led_registered _ _ ((step_map_led_registered false p i s).trans hs)⟩

theorem ipc127_led_probe_result (env : Env) (s : State) :
    Frame s (ipc127_led_probe env s).2
      ∧ (s.led_registered = [] → (ipc127_led_probe env s).1 ≠ 0 →
          (ipc127_led_probe env s).2.led_registered = []) := by
  by_cases hkz : env.kzalloc_ok = true
  · by_cases hkc : env.kcalloc_ok = true
    · have hprobe : ipc127_led_probe env s
          = probe_loop env ipc127_led_profile 0 (probe_entry s) := by
        simp [ipc127_led_probe, probe_entry, hkz, hkc]
      rw [hprobe]
      obtain ⟨f, g⟩ := probe_loop_result env ipc127_led_profile 0 (probe_entry s)
        ipc127_led_profile_offset_ne_zero
      have h : Frame s (probe_entry s) :=
        ⟨rfl, rfl, rfl, [.devm_kzalloc, .devm_kcalloc 6, .spin_lock_init], by
          simp [probe_entry, emit, ipc127_led_profile]⟩
      exact ⟨Frame.trans h f, fun hs => g (by simpa [probe_entry, emit] using hs)⟩
    · have hkc0 : env.kcalloc_ok = false := by simpa using hkc
      have hprobe : ipc127_led_probe env s
          = (-ENOMEM, emit (.devm_kcalloc ipc127_led_profile.length) (emit .devm_kzalloc s)) := by
        simp [ipc127_led_probe, hkz, hkc0]
      rw [hprobe]
      exact ⟨⟨rfl, rfl, rfl, [.devm_kzalloc, .devm_kcalloc 6], by simp [emit, ipc127_led_profile]⟩,
        fun hs _ => hs⟩
  · have hkz0 : env.kzalloc_ok = false := by simpa using hkz
    have hprobe : ipc127_led_probe env s = (-ENOMEM, emit .devm_kzalloc s) := by
      simp [ipc127_led_probe, hkz0]
    rw [hprobe]
    exact ⟨⟨rfl, rfl, rfl, [.devm_kzalloc], rfl⟩, fun hs _ => hs⟩

theorem platform_driver_probe_result (env : Env) (s : State) :
    (platform_driver_probe env s).2.pdev_registered = s.pdev_registered
      ∧ (∃ evs, (platform_driver_probe env s).2.trace
          = s.trace ++ .platform_driver_probe :: evs)
      ∧ (s.led_registered = [] → (platform_driver_probe env s).1 ≠ 0 →
          (platform_driver_probe env s).2.led_registered = []
            ∧ (platform_driver_probe env s).2.driver_registered = s.driver_registered) := by
  by_cases hd : env.driver_register = 0
  · obtain ⟨⟨a, b, _, evs, d⟩, g⟩ :=
      ipc127_led_probe_result env (emit .platform_driver_probe s)
    by_cases hr : (ipc127_led_probe env (emit .platform_driver_probe s)).1 = 0
    · have h : platform_driver_probe env s
          = (0, { (ipc127_led_probe env (emit .platform_driver_probe s)).2 with
                  driver_registered := true }) := by
        simp [platform_driver_probe, hd, hr]
      rw [h]
      exact ⟨a, ⟨evs, by simpa [emit] using d⟩, fun _ h0 => absurd rfl h0⟩
    · have h : platform_driver_probe env s
          = ((ipc127_led_probe env (emit .platform_driver_probe s)).1,
             (ipc127_led_probe env (emit .platform_driver_probe s)).2) := by
        simp [platform_driver_probe, hd, hr]
      rw [h]
      exact ⟨a, ⟨evs, by simpa [emit] using d⟩, fun hs _ => ⟨g hs hr, b⟩⟩
  · have h : platform_driver_probe env s
        = (env.driver_register, emit .platform_driver_probe s) := by
      simp [platform_driver_probe, hd]
    rw [h]
    exact ⟨rfl, ⟨[], rfl⟩, fun hs _ => ⟨hs, rfl⟩⟩

theorem ipc127_led_init_unrecognized (env : Env) (fw : dmi_ident) (s : State)
    (h : (dmi_match fw .DMI_SYS_VENDOR "SIEMENS AG" &&
          dmi_match fw .DMI_PRODUCT_NAME "SIMATIC IPC127E") = false) :
    ipc127_led_init env fw s = (-ENODEV, pr_err "No SIMATIC IPC127E detected.\n" s) := by
  simp only [ipc127_led_init, h, Bool.not_false, if_true]

theorem ipc127_led_init_pdev_fail (env : Env) (fw : dmi_ident) (s : State)
    (h : (dmi_match fw .DMI_SYS_VENDOR "SIEMENS AG" &&
          dmi_match fw .DMI_PRODUCT_NAME "SIMATIC IPC127E") = true)
    (he : env.pdev_register ≠ 0) :
    ipc127_led_init env fw s
      = (env.pdev_register,
          pr_err "Device allocation failed\n" (emit .platform_device_register_simple s)) := by
  simp only [ipc127_led_init, h, Bool.not_true, Bool.false_eq_true, if_false, ne_eq, he,
    not_false_eq_true, if_true]

theorem ipc127_led_init_probe_fail (env : Env) (fw : dmi_ident) (s : State)
    (h : (dmi_match fw .DMI_SYS_VENDOR "SIEMENS AG" &&
          dmi_match fw .DMI_PRODUCT_NAME "SIMATIC IPC127E") = true)
    (he : env.pdev_register = 0) (hr : (platform_driver_probe env (pdev_added s)).1 ≠ 0) :
    ipc127_led_init env fw s
      = ((platform_driver_probe env (pdev_added s)).1,
          emit .platform_device_unregister
            { (pr_err "Probe platform driver failed\n"
                (platform_driver_probe env (pdev_added s)).2) with
              pdev_registered := false }) := by
  have hr2 : (platform_driver_probe env
      { (emit .platform_device_register_simple s) with pdev_registered := true }).1 ≠ 0 := hr
  simp only [ipc127_led_init, h, Bool.not_true, Bool.false_eq_true, if_false, ne_eq, he,
    not_true_eq_false, hr2, not_false_eq_true, if_true, pdev_added]

theorem ipc127_led_init_ok (env : Env) (fw : dmi_ident) (s : State)
    (h : (dmi_match fw .DMI_SYS_VENDOR "SIEMENS AG" &&
          dmi_match fw .DMI_PRODUCT_NAME "SIMATIC IPC127E") = true)
    (he : env.pdev_register = 0) (hr : (platform_driver_probe env (pdev_added s)).1 = 0) :
    ipc127_led_init env fw s = platform_driver_probe env (pdev_added s) := by
  have hr2 : (platform_driver_probe env
      { (emit .platform_device_register_simple s) with pdev_registered := true }).1 = 0 := hr
  simp only [ipc127_led_init, h, Bool.not_true, Bool.false_eq_true, if_false, ne_eq, he,
    not_true_eq_false, hr2, pdev_added]
  exact Prod.ext hr.symm rfl

theorem dmi_match_ipc127 (fw : dmi_ident) :
    (dmi_match fw .DMI_SYS_VENDOR "SIEMENS AG" &&
        dmi_match fw .DMI_PRODUCT_NAME "SIMATIC IPC127E") = true
      ↔ (fw.sys_vendor = "SIEMENS AG" ∧ fw.product_name = "SIMATIC IPC127E") := by
  simp [dmi_match, dmi_get_system_info]

/-- C6: `ipc127_led_init` goes on to register the platform device if and only if
the firmware vendor string equals "SIEMENS AG" and the product name equals
"SIMATIC IPC127E", exactly; for every other pair of strings it returns `-ENODEV`
having only logged a message: no kernel call is made, so no platform device is
registered, the probe does not run, and no register is written. -/
theorem init_board_check (env : Env) (fw : dmi_ident) (s : State) :
    ((∃ evs, (ipc127_led_init env fw s).2.trace
          = s.trace ++ .platform_device_register_simple :: evs)
        ↔ (fw.sys_vendor = "SIEMENS AG" ∧ fw.product_name = "SIMATIC IPC127E"))
      ∧ (¬ (fw.sys_vendor = "SIEMENS AG" ∧ fw.product_name = "SIMATIC IPC127E") →
          ipc127_led_init env fw s = (-ENODEV, pr_err "No SIMATIC IPC127E detected.\n" s)
            ∧ (ipc127_led_init env fw s).1 = -ENODEV
            ∧ (ipc127_led_init env fw s).2.trace = s.trace
            ∧ (ipc127_led_init env fw s).2.regs = s.regs
            ∧ (ipc127_led_init env fw s).2.led_registered = s.led_registered
            ∧ (ipc127_led_init env fw s).2.pdev_registered = s.pdev_registered
            ∧ (ipc127_led_init env fw s).2.driver_registered = s.driver_registered) := by
  have hno : ¬ (fw.sys_vendor = "SIEMENS AG" ∧ fw.product_name = "SIMATIC IPC127E") →
      ipc127_led_init env fw s = (-ENODEV, pr_err "No SIMATIC IPC127E detected.\n" s) := by
    intro h
    apply ipc127_led_init_unrecognized
    rw [← Bool.not_eq_true, dmi_match_ipc127]
    exact h
  refine ⟨⟨?_, ?_⟩, ?_⟩
  · rintro ⟨evs, hevs⟩
    by_contra h
    rw [hno h] at hevs
    have := congrArg List.length hevs
    simp [pr_err] at this
  · intro h
    have hrec := (dmi_match_ipc127 fw).2 h
    by_cases he : env.pdev_register = 0
    · obtain ⟨_, ⟨evs, d⟩, _⟩ := platform_driver_probe_result env (pdev_added s)
      by_cases hr : (platform_driver_probe env (pdev_added s)).1 = 0
      · rw [ipc127_led_init_ok env fw s hrec he hr, d]
        exact ⟨.platform_driver_probe :: evs, by simp [pdev_added, emit]⟩
      · rw [ipc127_led_init_probe_fail env fw s hrec he hr]
        refine ⟨.platform_driver_probe :: evs ++ [.platform_device_unregister], ?_⟩
        show (platform_driver_probe env (pdev_added s)).2.trace ++ [.platform_device_unregister] = _
        rw [d]
        simp [pdev_added, emit]
    · rw [ipc127_led_init_pdev_fail env fw s hrec he]
      exact ⟨[], rfl⟩
  · intro h
    rw [hno h]
    exact ⟨rfl, rfl, rfl, rfl, rfl, rfl, rfl⟩

theorem init_board_check_witness :
    ¬ (("siemens ag" : String) = "SIEMENS AG" ∧ ("SIMATIC IPC127E" : String) = "SIMATIC IPC127E")
      ∧ (ipc127_led_init env_ok ⟨"siemens ag", "SIMATIC IPC127E"⟩ (State.init fun _ => 0)).1
          = -ENODEV
      ∧ (ipc127_led_init env_ok ⟨"siemens ag", "SIMATIC IPC127E"⟩ (State.init fun _ => 0)).2.trace
          = [] :=
  have h := (init_board_check env_ok ⟨"siemens ag", "SIMATIC IPC127E"⟩
    (State.init fun _ => 0)).2 (by decide)
  ⟨by decide, h.2.1, h.2.2.1⟩

/-- C8: on a recognized board, (a) when `platform_device_register_simple` fails,
`ipc127_led_init` returns that error and `platform_driver_probe` is never
called; (b) when `platform_driver_probe` returns a non-zero `e`, the platform
device registered earlier in the call is unregistered, as the last kernel call,
and the function returns `e`; (c) hence a failing `ipc127_led_init`, entered
with nothing registered, leaves no platform device, no LED and no platform
driver registered. -/
theorem init_failure_rolls_back (env : Env) (fw : dmi_ident) (s : State)
    (hrec : fw.sys_vendor = "SIEMENS AG" ∧ fw.product_name = "SIMATIC IPC127E")
    (hs : Clean s) :
    (env.pdev_register ≠ 0 →
        (ipc127_led_init env fw s).1 = env.pdev_register
          ∧ (ipc127_led_init env fw s).2.trace = s.trace ++ [.platform_device_register_simple])
      ∧ (env.pdev_register = 0 → (platform_driver_probe env (pdev_added s)).1 ≠ 0 →
          (ipc127_led_init env fw s).1 = (platform_driver_probe env (pdev_added s)).1
            ∧ (ipc127_led_init env fw s).2.trace
                = (platform_driver_probe env (pdev_added s)).2.trace
                    ++ [.platform_device_unregister]
            ∧ (∃ evs, (platform_driver_probe env (pdev_added s)).2.trace
                = s.trace ++ [.platform_device_register_simple, .platform_driver_probe] ++ evs))
      ∧ ((ipc127_led_init env fw s).1 ≠ 0 →
          (ipc127_led_init env fw s).2.pdev_registered = false
            ∧ (ipc127_led_init env fw s).2.led_registered = []
            ∧ (ipc127_led_init env fw s).2.driver_registered = false) := by
  obtain ⟨hl, hp, hd⟩ := hs
  have hm := (dmi_match_ipc127 fw).2 hrec
  obtain ⟨_, ⟨evs, d⟩, g⟩ := platform_driver_probe_result env (pdev_added s)
  refine ⟨?_, ?_, ?_⟩
  · intro he
    rw [ipc127_led_init_pdev_fail env fw s hm he]
    exact ⟨rfl, rfl⟩
  · intro he hr
    rw [ipc127_led_init_probe_fail env fw s hm he hr]
    refine ⟨rfl, rfl, evs, ?_⟩
    rw [d]
    simp [pdev_added, emit]
  · by_cases he : env.pdev_register = 0
    · by_cases hr : (platform_driver_probe env (pdev_added s)).1 = 0
      · rw [ipc127_led_init_ok env fw s hm he hr]
        exact fun h => absurd hr h
      · rw [ipc127_led_init_probe_fail env fw s hm he hr]
        intro _
        obtain ⟨g1, g2⟩ := g hl hr
        exact ⟨rfl, g1, g2.trans hd⟩
    · rw [ipc127_led_init_pdev_fail env fw s hm he]
      intro _
      exact ⟨hp, hl, hd⟩

theorem init_failure_rolls_back_witness :
    ((⟨"SIEMENS AG", "SIMATIC IPC127E"⟩ : dmi_ident).sys_vendor = "SIEMENS AG"
        ∧ (⟨"SIEMENS AG", "SIMATIC IPC127E"⟩ : dmi_ident).product_name = "SIMATIC IPC127E")
      ∧ Clean (State.init fun _ => 0)
      ∧ (ipc127_led_init env_reg_fail_4 ⟨"SIEMENS AG", "SIMATIC IPC127E"⟩
            (State.init fun _ => 0)).1 = -16
      ∧ (ipc127_led_init env_reg_fail_4 ⟨"SIEMENS AG", "SIMATIC IPC127E"⟩
            (State.init fun _ => 0)).2.pdev_registered = false
      ∧ (ipc127_led_init env_reg_fail_4 ⟨"SIEMENS AG", "SIMATIC IPC127E"⟩
            (State.init fun _ => 0)).2.led_registered = [] :=
  have h := init_failure_rolls_back env_reg_fail_4 ⟨"SIEMENS AG", "SIMATIC IPC127E"⟩
    (State.init fun _ => 0) ⟨rfl, rfl⟩ ⟨rfl, rfl, rfl⟩
  have hr : (platform_driver_probe env_reg_fail_4 (pdev_added (State.init fun _ => 0))).1 = -16 :=
    by decide
  ⟨⟨rfl, rfl⟩, ⟨rfl, rfl, rfl⟩, (h.2.1 rfl (by rw [hr]; decide)).1.trans hr,
    (h.2.2 (by rw [(h.2.1 rfl (by rw [hr]; decide)).1, hr]; decide)).1,
    (h.2.2 (by rw [(h.2.1 rfl (by rw [hr]; decide)).1, hr]; decide)).2.1⟩

/-- C7: `ipc127_led_exit` calls `led_classdev_unregister` once on each of the six
LEDs 0..5, then `platform_device_unregister`, then
`platform_driver_unregister`, and makes no other kernel call; afterwards none
of the six LEDs, nor the platform device, nor the driver is registered. -/
theorem exit_order (s : State) :
    (ipc127_led_exit s).trace
        = s.trace ++
          [ .led_classdev_unregister 0, .led_classdev_unregister 1, .led_classdev_unregister 2,
            .led_classdev_unregister 3, .led_classdev_unregister 4, .led_classdev_unregister 5,
            .platform_device_unregister, .platform_driver_unregister ]
      ∧ (ipc127_led_exit s).led_registered
          = (((((s.led_registered.erase 0).erase 1).erase 2).erase 3).erase 4).erase 5
      ∧ (ipc127_led_exit s).pdev_registered = false
      ∧ (ipc127_led_exit s).driver_registered = false := by
  refine ⟨?_, rfl, rfl, rfl⟩
  simp [ipc127_led_exit, exit_loop, ipc127_led_profile, led_classdev_unregister, emit]

end IPC127

namespace EM32x

/-! ## Theorems on os-em32x.c -/

theorem scan_em320 (fw : dmi_ident) (s : State) (behind : List (dmi_system_id os_dev_config))
    (hv : fw.sys_vendor = "Axiomtek Co., Ltd") (hp : fw.product_name = "EM320") :
    dmi_check_system dmi_check_cb fw (os_dmi_table ++ behind) 0 0 s
      = .done 1 (found "EM320" s) := by
  simp [dmi_check_system, os_dmi_table, dmi_matches, dmi_match, DMI_MATCH, dmi_is_end_of_table,
    dmi_get_system_info, dmi_check_cb, found, hv, hp]

theorem scan_em321 (fw : dmi_ident) (s : State) (behind : List (dmi_system_id os_dev_config))
    (hv : fw.sys_vendor = "Axiomtek Co., Ltd") (hp : fw.product_name = "EM321") :
    dmi_check_system dmi_check_cb fw (os_dmi_table ++ behind) 0 0 s
      = .done 1 (found "EM321" s) := by
  simp [dmi_check_system, os_dmi_table, dmi_matches, dmi_match, DMI_MATCH, dmi_is_end_of_table,
    dmi_get_system_info, dmi_check_cb, found, hv, hp]

theorem scan_unrecognized (fw : dmi_ident) (s : State) (h : ¬ Recognized fw) :
    dmi_check_system dmi_check_cb fw os_dmi_table 0 0 s = .out_of_bounds 2 s := by
  have h1 : fw.sys_vendor = "Axiomtek Co., Ltd" → ¬ fw.product_name = "EM320" :=
    fun a b => h ⟨a, Or.inl b⟩
  have h2 : fw.sys_vendor = "Axiomtek Co., Ltd" → ¬ fw.product_name = "EM321" :=
    fun a b => h ⟨a, Or.inr b⟩
  by_cases hv : fw.sys_vendor = "Axiomtek Co., Ltd"
  · simp [dmi_check_system, os_dmi_table, dmi_matches, dmi_match, DMI_MATCH, dmi_is_end_of_table,
      dmi_get_system_info, hv, h1 hv, h2 hv]
  · simp [dmi_check_system, os_dmi_table, dmi_matches, dmi_match, DMI_MATCH, dmi_is_end_of_table,
      dmi_get_system_info, hv]

theorem os_init_em320 (env : Env) (fw : dmi_ident) (s : State)
    (hv : fw.sys_vendor = "Axiomtek Co., Ltd") (hp : fw.product_name = "EM320") :
    os_init env fw s
      = attach env em320_config (found "EM320" (pr_info "Checking for OS devices...\n" s)) := by
  simp only [os_init, scan_em320 fw _ env.behind hv hp]
  rfl

theorem os_init_em321 (env : Env) (fw : dmi_ident) (s : State)
    (hv : fw.sys_vendor = "Axiomtek Co., Ltd") (hp : fw.product_name = "EM321") :
    os_init env fw s
      = attach env em320_config (found "EM321" (pr_info "Checking for OS devices...\n" s)) := by
  simp only [os_init, scan_em321 fw _ env.behind hv hp]
  rfl

theorem os_init_recognized (env : Env) (fw : dmi_ident) (s : State) (h : Recognized fw) :
    ∃ s0 : State, os_init env fw s = attach env em320_config s0
      ∧ s0.trace = s.trace ∧ s0.i2c_registered = s.i2c_registered
      ∧ s0.plat_registered = s.plat_registered := by
  obtain ⟨hv, hp | hp⟩ := h
  · exact ⟨_, os_init_em320 env fw s hv hp, rfl, rfl, rfl⟩
  · exact ⟨_, os_init_em321 env fw s hv hp, rfl, rfl, rfl⟩

/-- The identification walk changes nothing but the log and `dev_config`. -/
theorem scan_kept (fw : dmi_ident) :
    ∀ (table : List (dmi_system_id os_dev_config)) (i count : Nat) (s : State),
      (∀ n t, dmi_check_system dmi_check_cb fw table i count s = .done n t → Kept s t)
        ∧ (∀ n t, dmi_check_system dmi_check_cb fw table i count s = .out_of_bounds n t →
            Kept s t) := by
  intro table
  induction table with
  | nil =>
    intro i count s
    refine ⟨fun n t h => ?_, fun n t h => ?_⟩
    · simp [dmi_check_system] at h
    · simp only [dmi_check_system, Scan.out_of_bounds.injEq] at h
      rw [← h.2]
      exact ⟨rfl, rfl, rfl, rfl⟩
  | cons d rest ih =>
    intro i count s
    by_cases he : dmi_is_end_of_table d = true
    · refine ⟨fun n t h => ?_, fun n t h => ?_⟩
      · simp only [dmi_check_system, he, if_true, Scan.done.injEq] at h
        rw [← h.2]
        exact ⟨rfl, rfl, rfl, rfl⟩
      · simp [dmi_check_system, he] at h
    · by_cases hm : dmi_matches fw d.strmatches = true
      · by_cases hc : d.callback = true
        · refine ⟨fun n t h => ?_, fun n t h => ?_⟩
          · simp [dmi_check_system, he, hm, hc, dmi_check_cb] at h
            rw [← h.2]
            exact ⟨rfl, rfl, rfl, rfl⟩
          · simp [dmi_check_system, he, hm, hc, dmi_check_cb] at h
        · have h0 : dmi_check_system dmi_check_cb fw (d :: rest) i count s
              = dmi_check_system dmi_check_cb fw rest (i + 1) (count + 1) s := by
            simp [dmi_check_system, he, hm, hc]
          rw [h0]
          exact ih (i + 1) (count + 1) s
      · have h0 : dmi_check_system dmi_check_cb fw (d :: rest) i count s
            = dmi_check_system dmi_check_cb fw rest (i + 1) count s := by
          simp [dmi_check_system, he, hm]
        rw [h0]
        exact ih (i + 1) count s

theorem attach_client_err (env : Env) (s : State) (e : Int)
    (h : env.i2c_get_adapter 0 = true) (hc : env.i2c_new_client_device = some e) :
    attach env em320_config s
      = .ret e (pr_err "Cannot create i2c device\n"
          (emit .i2c_put_adapter
            { (emit (.i2c_new_client_device em320_board_info) (emit (.i2c_get_adapter 0) s)) with
              client := .err e })) := by
  simp [attach, em320_config, h, hc, emit]

theorem attach_plat_fail (env : Env) (s : State)
    (h : env.i2c_get_adapter 0 = true) (hc : env.i2c_new_client_device = none)
    (hr : env.platform_add_devices < 0) :
    attach env em320_config s
      = .ret env.platform_add_devices
          (i2c_unregister_device (pr_err "Cannot register platform devices\n"
            (emit (.platform_add_devices em320_devs 1) (client_added s)))) := by
  have hne : env.platform_add_devices ≠ 0 := by omega
  simp [attach, em320_config, h, hc, emit, platform_add_devices, hne, hr, client_added, em320_devs]

/-- Whatever `dev_config` points at, a negative return of the attachment part
leaves nothing registered. -/
theorem attach_negative_clean (env : Env) (cfg : os_dev_config) (s0 : State)
    (hi : s0.i2c_registered = false) (hp : s0.plat_registered = []) (c : Int)
    (hc : (attach env cfg s0).code = some c) (hneg : c < 0) :
    (attach env cfg s0).state.i2c_registered = false
      ∧ (attach env cfg s0).state.plat_registered = [] := by
  by_cases ha : env.i2c_get_adapter cfg.i2c_bus = true
  · cases hcl : env.i2c_new_client_device with
    | some e => simp [attach, ha, hcl, emit, pr_err, Result.state, hi, hp]
    | none =>
      by_cases hr : env.platform_add_devices < 0
      · have hne : env.platform_add_devices ≠ 0 := by omega
        simp [attach, ha, hcl, emit, pr_err, Result.state, hp, platform_add_devices, hne, hr,
          i2c_unregister_device]
      · exfalso
        by_cases h0 : env.platform_add_devices = 0
        · simp [attach, ha, hcl, emit, Result.code, platform_add_devices, h0] at hc
          omega
        · simp [attach, ha, hcl, emit, Result.code, platform_add_devices, h0, hr] at hc
          omega
  · have ha0 : env.i2c_get_adapter cfg.i2c_bus = false := by simpa using ha
    simp [attach, ha0, emit, pr_err, Result.state, hi, hp]

/-- On any board and whatever lies behind the table, a negative return of
`os_init` leaves nothing registered. -/
theorem os_init_negative_clean (env : Env) (fw : dmi_ident) (s : State)
    (hi : s.i2c_registered = false) (hp : s.plat_registered = []) (c : Int)
    (hc : (os_init env fw s).code = some c) (hneg : c < 0) :
    (os_init env fw s).state.i2c_registered = false
      ∧ (os_init env fw s).state.plat_registered = [] := by
  obtain ⟨kd, ko⟩ := scan_kept fw (os_dmi_table ++ env.behind) 0 0
    (pr_info "Checking for OS devices...\n" s)
  cases hscan : dmi_check_system dmi_check_cb fw (os_dmi_table ++ env.behind) 0 0
      (pr_info "Checking for OS devices...\n" s) with
  | out_of_bounds n t =>
    have h0 : os_init env fw s = .out_of_bounds n t := by simp only [os_init, hscan]
    rw [h0] at hc
    simp [Result.code] at hc
  | done n t =>
    obtain ⟨_, k2, k3, _⟩ := kd n t hscan
    have hti : t.i2c_registered = false := k2.trans hi
    have htp : t.plat_registered = [] := k3.trans hp
    by_cases hn : n = 0
    · have h0 : os_init env fw s = .ret (-ENODEV) t := by simp only [os_init, hscan, hn, if_true]
      rw [h0]
      exact ⟨hti, htp⟩
    · cases hcfg : t.dev_config with
      | none =>
        have h0 : os_init env fw s = .null_deref t := by
          simp only [os_init, hscan, hn, if_false, hcfg]
        rw [h0] at hc
        simp [Result.code] at hc
      | some cfg =>
        have h0 : os_init env fw s = attach env cfg t := by
          simp only [os_init, hscan, hn, if_false, hcfg]
          rfl
        rw [h0] at hc ⊢
        exact attach_negative_clean env cfg t hti htp c hc hneg

/-- C5: entered with nothing registered, `os_init` on a recognized board whose
I2C adapter is found behaves as follows.  (a) When the I2C client is created
and `platform_add_devices` returns a negative `r`, `i2c_unregister_device` is
called on the client, as the last kernel call, and `os_init` returns `r`.
(b) When the creation of the I2C client fails with error `e`, `os_init` returns
`e` and `platform_add_devices` is never called.  (c) Whenever `os_init`, on any
board, returns a negative value, neither the I2C client nor any platform device
is registered. -/
theorem os_init_rolls_back (env : Env) (fw : dmi_ident) (s : State)
    (hclean : s.i2c_registered = false ∧ s.plat_registered = []) :
    (Recognized fw → env.i2c_get_adapter 0 = true →
        (env.i2c_new_client_device = none → env.platform_add_devices < 0 →
            (os_init env fw s).code = some env.platform_add_devices
              ∧ (os_init env fw s).state.trace
                  = s.trace ++
                    [ .i2c_get_adapter 0, .i2c_new_client_device em320_board_info,
                      .i2c_put_adapter, .platform_add_devices em320_devs 1,
                      .i2c_unregister_device ]
              ∧ (os_init env fw s).state.i2c_registered = false
              ∧ (os_init env fw s).state.plat_registered = [])
          ∧ (∀ e, env.i2c_new_client_device = some e →
              (os_init env fw s).code = some e
                ∧ (os_init env fw s).state.trace
                    = s.trace ++
                      [ .i2c_get_adapter 0, .i2c_new_client_device em320_board_info,
                        .i2c_put_adapter ]
                ∧ (os_init env fw s).state.i2c_registered = false
                ∧ (os_init env fw s).state.plat_registered = []))
      ∧ (∀ c, (os_init env fw s).code = some c → c < 0 →
          (os_init env fw s).state.i2c_registered = false
            ∧ (os_init env fw s).state.plat_registered = []) := by
  obtain ⟨hi, hp⟩ := hclean
  have hfail : ∀ s0 : State, s0.trace = s.trace → s0.i2c_registered = s.i2c_registered →
      s0.plat_registered = s.plat_registered → env.i2c_get_adapter 0 = true →
      env.i2c_new_client_device = none → env.platform_add_devices < 0 →
      (attach env em320_config s0).code = some env.platform_add_devices
        ∧ (attach env em320_config s0).state.trace
            = s.trace ++
              [ .i2c_get_adapter 0, .i2c_new_client_device em320_board_info,
                .i2c_put_adapter, .platform_add_devices em320_devs 1,
                .i2c_unregister_device ]
        ∧ (attach env em320_config s0).state.i2c_registered = false
        ∧ (attach env em320_config s0).state.plat_registered = [] := by
    intro s0 ht _ hpl ha hc hr
    rw [attach_plat_fail env s0 ha hc hr]
    refine ⟨rfl, ?_, rfl, ?_⟩
    · simp [Result.state, i2c_unregister_device, pr_err, emit, client_added, ht]
    · simp [Result.state, i2c_unregister_device, pr_err, emit, client_added, hpl, hp]
  have herr : ∀ (s0 : State) (e : Int), s0.trace = s.trace →
      s0.i2c_registered = s.i2c_registered →
      s0.plat_registered = s.plat_registered → env.i2c_get_adapter 0 = true →
      env.i2c_new_client_device = some e →
      (attach env em320_config s0).code = some e
        ∧ (attach env em320_config s0).state.trace
            = s.trace ++
              [ .i2c_get_adapter 0, .i2c_new_client_device em320_board_info,
                .i2c_put_adapter ]
        ∧ (attach env em320_config s0).state.i2c_registered = false
        ∧ (attach env em320_config s0).state.plat_registered = [] := by
    intro s0 e ht hir hpl ha hc
    rw [attach_client_err env s0 e ha hc]
    refine ⟨rfl, ?_, ?_, ?_⟩
    · simp [Result.state, pr_err, emit, ht]
    · simp [Result.state, pr_err, emit, hir, hi]
    · simp [Result.state, pr_err, emit, hpl, hp]
  refine ⟨?_, ?_⟩
  · intro hrec ha
    obtain ⟨s0, h0, ht, hir, hpl⟩ := os_init_recognized env fw s hrec
    rw [h0]
    exact ⟨fun hc hr => hfail s0 ht hir hpl ha hc hr, fun e hc => herr s0 e ht hir hpl ha hc⟩
  · intro c hc hneg
    exact os_init_negative_clean env fw s hi hp c hc hneg

theorem os_init_rolls_back_witness :
    (State.init.i2c_registered = false ∧ State.init.plat_registered = [])
      ∧ Recognized ⟨"Axiomtek Co., Ltd", "EM321"⟩
      ∧ env_plat_fail.i2c_get_adapter 0 = true
      ∧ env_plat_fail.i2c_new_client_device = none
      ∧ env_plat_fail.platform_add_devices < 0
      ∧ (os_init env_plat_fail ⟨"Axiomtek Co., Ltd", "EM321"⟩ State.init).code = some (-12)
      ∧ (os_init env_plat_fail ⟨"Axiomtek Co., Ltd", "EM321"⟩ State.init).state.trace
          = [ .i2c_get_adapter 0, .i2c_new_client_device em320_board_info,
              .i2c_put_adapter, .platform_add_devices em320_devs 1, .i2c_unregister_device ]
      ∧ (os_init env_plat_fail ⟨"Axiomtek Co., Ltd", "EM321"⟩ State.init).state.i2c_registered
          = false :=
  have h := ((os_init_rolls_back env_plat_fail ⟨"Axiomtek Co., Ltd", "EM321"⟩ State.init
    ⟨rfl, rfl⟩).1 (by decide) rfl).1 rfl (by decide)
  ⟨⟨rfl, rfl⟩, by decide, rfl, rfl, by decide, h.1, h.2.1, h.2.2.1⟩

/-- C10, at the board "SIEMENS AG" / "SIMATIC IPC127E": `os_dmi_table` has exactly
two entries and neither is the empty entry that closes a table, so the scan,
having passed both, reads the entry at index 2, outside the table.  With the
empty entry appended the same scan ends with no match, as does the scan of the
closed table `ipc127_led_dmi_table` of the sibling driver on a board it does
not describe. -/
theorem os_dmi_table_scan_leaves_table (s : State) :
    os_dmi_table.length = 2
      ∧ (∀ d ∈ os_dmi_table, dmi_is_end_of_table d = false)
      ∧ dmi_check_system dmi_check_cb ⟨"SIEMENS AG", "SIMATIC IPC127E"⟩ os_dmi_table 0 0 s
          = .out_of_bounds 2 s
      ∧ dmi_check_system dmi_check_cb ⟨"SIEMENS AG", "SIMATIC IPC127E"⟩
            (os_dmi_table ++ [dmi_system_id.terminator]) 0 0 s
          = .done 0 s
      ∧ dmi_check_system (fun _ (u : Unit) => ((0 : Int), u)) ⟨"Axiomtek Co., Ltd", "EM320"⟩
            IPC127.ipc127_led_dmi_table 0 0 ()
          = .done 0 () := by
  refine ⟨rfl, ?_, scan_unrecognized _ s (by decide), ?_, ?_⟩
  · simp [os_dmi_table, dmi_is_end_of_table, DMI_MATCH]
  · simp [dmi_check_system, os_dmi_table, dmi_matches, dmi_match, DMI_MATCH,
      dmi_is_end_of_table, dmi_get_system_info, dmi_system_id.terminator]
  · simp [dmi_check_system, IPC127.ipc127_led_dmi_table, dmi_matches, dmi_match, DMI_MATCH,
      dmi_is_end_of_table, dmi_get_system_info, dmi_system_id.terminator]

/-- C4, as the code has it: with `client` set, `os_exit` first unregisters the I2C
client of the GPIO expander and only then the leds-gpio platform device
`em320_devs[0]`; these are its only kernel calls. -/
theorem os_exit_order (s : State) (h : s.client ≠ .null) :
    (os_exit s).trace
        = s.trace ++ [ .i2c_unregister_device, .platform_device_unregister (some em320_leds_dev) ]
      ∧ (os_exit s).i2c_registered = false
      ∧ (os_exit s).plat_registered = s.plat_registered.erase em320_leds_dev := by
  simp [os_exit, pr_info, h, i2c_unregister_device, platform_device_unregister, emit,
    em320_devs]

theorem os_exit_order_witness :
    (os_init env_ok ⟨"Axiomtek Co., Ltd", "EM320"⟩ State.init).state.client ≠ .null
      ∧ (os_init env_ok ⟨"Axiomtek Co., Ltd", "EM320"⟩ State.init).code = some 0
      ∧ (os_init env_ok ⟨"Axiomtek Co., Ltd", "EM320"⟩ State.init).state.plat_registered
          = [em320_leds_dev]
      ∧ (os_exit (os_init env_ok ⟨"Axiomtek Co., Ltd", "EM320"⟩ State.init).state).trace
          = [ .i2c_get_adapter 0, .i2c_new_client_device em320_board_info, .i2c_put_adapter,
              .platform_add_devices em320_devs 1,
              .i2c_unregister_device, .platform_device_unregister (some em320_leds_dev) ] :=
  ⟨by decide, by decide, by decide,
    (os_exit_order (os_init env_ok ⟨"Axiomtek Co., Ltd", "EM320"⟩ State.init).state
      (by decide)).1.trans (by decide)⟩

end EM32x
